import Mathlib

/-!
Verification development for the btmgmt management client
(src/tools/btmgmt.c). The definitions below are a shallow embedding of the
event and response handlers of that file: global state becomes an explicit
record threaded through the handlers, submitted management requests and
error reports become explicit effect lists, and the blocking operator-input
reads become an explicit `Option (List Char)` argument (the line that
fgets would have produced). Machine integers are modelled as `Nat`;
payloads are modelled as the parsed fields together with the wire-declared
payload length, since the handlers only inspect the length and the fields.
-/

namespace Btmgmt

/-- Payload size of struct mgmt_addr_info (6-byte bdaddr plus 1-byte type).
Modelled from the spec: the packed wire layouts are declared in lib/mgmt.h,
which is outside the sources given here; the spec fixes little-endian packed
frames, and the claims below do not depend on the exact numeric sizes. -/
def addrInfoSize : Nat := 7

/-- Payload size of struct mgmt_ev_controller_error.
Modelled from the spec: layout from lib/mgmt.h, see addrInfoSize. -/
def controllerErrorEvSize : Nat := 1

/-- Payload size of the new_settings event (one 32-bit settings word).
Modelled from the spec: layout from lib/mgmt.h, see addrInfoSize. -/
def newSettingsEvSize : Nat := 4

/-- Payload size of struct mgmt_ev_discovering (type byte, discovering byte).
Modelled from the spec: layout from lib/mgmt.h, see addrInfoSize. -/
def discoveringEvSize : Nat := 2

/-- Payload size of struct mgmt_ev_new_link_key.
Modelled from the spec: layout from lib/mgmt.h, see addrInfoSize. -/
def newLinkKeyEvSize : Nat := 26

/-- Fixed-prefix size of struct mgmt_ev_device_connected (addr, flags,
eir_len), before the variable eir bytes.
Modelled from the spec: layout from lib/mgmt.h, see addrInfoSize. -/
def deviceConnectedEvSize : Nat := 13

/-- Payload size of struct mgmt_ev_connect_failed (addr, status).
Modelled from the spec: layout from lib/mgmt.h, see addrInfoSize. -/
def connectFailedEvSize : Nat := 8

/-- Payload size of struct mgmt_ev_auth_failed (addr, status).
Modelled from the spec: layout from lib/mgmt.h, see addrInfoSize. -/
def authFailedEvSize : Nat := 8

/-- Payload size of struct mgmt_ev_local_name_changed (name, short_name).
Modelled from the spec: layout from lib/mgmt.h, see addrInfoSize. -/
def localNameChangedEvSize : Nat := 260

/-- Fixed-prefix size of struct mgmt_ev_device_found (addr, rssi, flags,
eir_len), before the variable eir bytes.
Modelled from the spec: layout from lib/mgmt.h, see addrInfoSize. -/
def deviceFoundEvSize : Nat := 14

/-- Payload size of struct mgmt_ev_pin_code_request (addr, secure).
Modelled from the spec: layout from lib/mgmt.h, see addrInfoSize. -/
def pinCodeRequestEvSize : Nat := 8

/-- Payload size of struct mgmt_ev_user_confirm_request (addr, confirm_hint,
32-bit value).
Modelled from the spec: layout from lib/mgmt.h, see addrInfoSize. -/
def userConfirmRequestEvSize : Nat := 12

/-- Payload size of struct mgmt_rp_confirm_name (addr only).
Modelled from the spec: layout from lib/mgmt.h, see addrInfoSize. -/
def confirmNameRpSize : Nat := 7

/-- Payload size of struct mgmt_rp_read_info.
Modelled from the spec: layout from lib/mgmt.h, see addrInfoSize. -/
def readInfoRpSize : Nat := 280

/-- Capacity of the pin_code field of struct mgmt_cp_pin_code_reply.
Modelled from the spec: the claim and lib/mgmt.h give the field 16 bytes. -/
def pinCodeMaxLen : Nat := 16

/-- Size of the local input buffer in request_pin: char pin[18]. -/
def pinBufSize : Nat := 18

/-- Size of the local input buffer in user_confirm: char rsp[5]. -/
def rspBufSize : Nat := 5

/-- The MGMT_DEV_FOUND_CONFIRM_NAME bit tested in device_found.
Modelled from the spec: the flag value is declared in lib/mgmt.h; the claims
only use whether the bit is set in the event flags word. -/
def MGMT_DEV_FOUND_CONFIRM_NAME : Nat := 1

/-- A device address as carried by struct mgmt_addr_info: six address bytes
plus an address-type byte. -/
structure AddrInfo where
  bdaddr : List Nat
  addrType : Nat
deriving DecidableEq, Repr

/-- Parsed fields of struct mgmt_ev_device_found (the variable eir bytes are
irrelevant to the handler logic beyond eir_len). -/
structure DeviceFoundEv where
  addr : AddrInfo
  rssi : Int
  flags : Nat
  eir_len : Nat
deriving DecidableEq, Repr

/-- Parsed fields of struct mgmt_ev_pin_code_request. -/
structure PinRequestEv where
  addr : AddrInfo
  secure : Nat
deriving DecidableEq, Repr

/-- Parsed fields of struct mgmt_ev_user_confirm_request. -/
structure UserConfirmEv where
  addr : AddrInfo
  confirm_hint : Nat
  value : Nat
deriving DecidableEq, Repr

/-- A management request submitted by a handler through mgmt_reply.
The constructors record the opcode kind and the control-parameter fields the
source fills in; pinReply carries both the copied pin characters and the
pin_len byte of struct mgmt_cp_pin_code_reply. -/
inductive Request where
  | confirmName (index : Nat) (addr : AddrInfo) (nameKnown : Nat)
  | pinReply (index : Nat) (addr : AddrInfo) (pin : List Char) (pinLen : Nat)
  | pinNegReply (index : Nat) (addr : AddrInfo)
  | userConfirmReply (index : Nat) (bdaddr : List Nat)
  | userConfirmNegReply (index : Nat) (bdaddr : List Nat)
deriving DecidableEq, Repr

/-- The global mutable state of btmgmt.c: the monitor, discovery and
resolve_names flags, the pending read-info counter, and whether
g_main_loop_quit has been called on the event loop. -/
structure BtState where
  monitor : Bool
  discovery : Bool
  resolve_names : Bool
  pending : Int
  quit : Bool
deriving DecidableEq, Repr

/-- Initial state of the globals: monitor = false, discovery = false,
resolve_names = true, pending = 0, loop running. -/
def initState : BtState :=
  { monitor := false, discovery := false, resolve_names := true,
    pending := 0, quit := false }

/-- Side effects of one handler invocation: the requests it submitted and
the error reports it printed to stderr. -/
structure Effects where
  requests : List Request
  errors : List String
deriving DecidableEq, Repr

/-- No effect. -/
def noEff : Effects := { requests := [], errors := [] }

/-- A single stderr error report. -/
def errEff (e : String) : Effects := { requests := [], errors := [e] }

/-- A single submitted request. -/
def reqEff (r : Request) : Effects := { requests := [r], errors := [] }

/-- g_main_loop_quit on the event loop: the quit flag becomes true. -/
def quitLoop (st : BtState) : BtState := { st with quit := true }

/-- Strip one trailing newline, as the handlers do after fgets:
if pin[pin_len - 1] is a newline it is overwritten and the length drops. -/
def trimNewline (l : List Char) : List Char :=
  if l.getLast? = some '\n' then l.dropLast else l

/-- A line as fgets with the given buffer size can return it: nonempty, at
most bufSize - 1 characters, and no newline before the final character
(fgets stops reading right after a newline). -/
def validFgetsLine (bufSize : Nat) (l : List Char) : Prop :=
  l ≠ [] ∧ l.length ≤ bufSize - 1 ∧ ∀ c ∈ l.dropLast, c ≠ '\n'

instance (bufSize : Nat) (l : List Char) : Decidable (validFgetsLine bufSize l) := by
  unfold validFgetsLine; infer_instance

/-- An optional operator input line: none models fgets returning NULL. -/
def validOptLine (bufSize : Nat) : Option (List Char) → Prop
  | none => True
  | some l => validFgetsLine bufSize l

instance (bufSize : Nat) (o : Option (List Char)) : Decidable (validOptLine bufSize o) := by
  cases o <;> (unfold validOptLine; infer_instance)

/-- Handler controller_error: drops a too-short event, otherwise only
prints under monitor. -/
def controller_error (st : BtState) (len : Nat) : BtState × Effects :=
  if len < controllerErrorEvSize then
    (st, errEff "Too short controller error event")
  else (st, noEff)

/-- Handler index_added: print-only. -/
def index_added (st : BtState) : BtState × Effects := (st, noEff)

/-- Handler index_removed: print-only. -/
def index_removed (st : BtState) : BtState × Effects := (st, noEff)

/-- Handler new_settings: drops a too-short event, otherwise print-only. -/
def new_settings (st : BtState) (len : Nat) : BtState × Effects :=
  if len < newSettingsEvSize then (st, errEff "Too short new_settings event")
  else (st, noEff)

/-- Handler discovering (mgmt_ev_discovering): drops a too-short event;
otherwise, when the event reports discovering off and the discovery flag is
set, quits the event loop; then prints under monitor. -/
def discovering (st : BtState) (len discType disc : Nat) : BtState × Effects :=
  if len < discoveringEvSize then
    (st, errEff "Too short discovering event")
  else if disc = 0 ∧ st.discovery then (quitLoop st, noEff)
  else (st, noEff)

/-- Handler new_link_key: drops an event whose length is not exactly the
structure size, otherwise print-only. -/
def new_link_key (st : BtState) (len : Nat) : BtState × Effects :=
  if len ≠ newLinkKeyEvSize then (st, errEff "Invalid new_link_key length")
  else (st, noEff)

/-- Handler connected: drops a too-short event, then drops an event whose
length disagrees with its eir_len field, otherwise print-only. -/
def connected (st : BtState) (len eirLen : Nat) : BtState × Effects :=
  if len < deviceConnectedEvSize then
    (st, errEff "Invalid connected event length")
  else if len ≠ deviceConnectedEvSize + eirLen then
    (st, errEff "Invalid connected event length with eir_len")
  else (st, noEff)

/-- Handler disconnected: drops an event shorter than an address record,
otherwise print-only. -/
def disconnected (st : BtState) (len : Nat) : BtState × Effects :=
  if len < addrInfoSize then (st, errEff "Invalid disconnected event length")
  else (st, noEff)

/-- Handler conn_failed: drops an event of the wrong exact length,
otherwise print-only. -/
def conn_failed (st : BtState) (len : Nat) : BtState × Effects :=
  if len ≠ connectFailedEvSize then
    (st, errEff "Invalid connect_failed event length")
  else (st, noEff)

/-- Handler auth_failed: drops an event of the wrong exact length,
otherwise print-only. -/
def auth_failed (st : BtState) (len : Nat) : BtState × Effects :=
  if len ≠ authFailedEvSize then
    (st, errEff "Invalid auth_failed event length")
  else (st, noEff)

/-- Handler local_name_changed: drops an event of the wrong exact length,
otherwise print-only. -/
def local_name_changed (st : BtState) (len : Nat) : BtState × Effects :=
  if len ≠ localNameChangedEvSize then
    (st, errEff "Invalid local_name_changed length")
  else (st, noEff)

/-- Handler device_found: drops a too-short event, then an event whose
length disagrees with eir_len; otherwise, when discovery is active and the
confirm-name flag is set, submits a confirm_name request whose name_known
byte is 0 when resolve_names is set and 1 when it is not. -/
def device_found (st : BtState) (index len : Nat) (ev : DeviceFoundEv) :
    BtState × Effects :=
  if len < deviceFoundEvSize then
    (st, errEff "Too short device_found length")
  else if len ≠ deviceFoundEvSize + ev.eir_len then
    (st, errEff "dev_found length mismatch")
  else if st.discovery ∧ ev.flags &&& MGMT_DEV_FOUND_CONFIRM_NAME ≠ 0 then
    (st, reqEff (.confirmName index ev.addr (if st.resolve_names then 0 else 1)))
  else (st, noEff)

/-- mgmt_pin_reply: fills struct mgmt_cp_pin_code_reply with the event
address, pin_len = strlen of the trimmed line, and copies that many bytes
into pin_code. -/
def mgmt_pin_reply (index : Nat) (addr : AddrInfo) (pin : List Char) : Request :=
  .pinReply index addr pin pin.length

/-- mgmt_pin_neg_reply: fills struct mgmt_cp_pin_code_neg_reply with the
event address. -/
def mgmt_pin_neg_reply (index : Nat) (addr : AddrInfo) : Request :=
  .pinNegReply index addr

/-- Handler request_pin: drops an event of the wrong exact length; on NULL
or empty (leading newline) input sends a negative PIN reply; otherwise
strips one trailing newline and sends the line as the PIN code. -/
def request_pin (st : BtState) (index len : Nat) (ev : PinRequestEv)
    (input : Option (List Char)) : BtState × Effects :=
  if len ≠ pinCodeRequestEvSize then
    (st, errEff "Invalid pin_code request length")
  else
    match input with
    | none => (st, reqEff (mgmt_pin_neg_reply index ev.addr))
    | some pin =>
      if pin.head? = some '\n' then
        (st, reqEff (mgmt_pin_neg_reply index ev.addr))
      else (st, reqEff (mgmt_pin_reply index ev.addr (trimNewline pin)))

/-- mgmt_confirm_reply: fills struct mgmt_cp_user_confirm_reply with the
event bdaddr only (bacpy copies the six address bytes). -/
def mgmt_confirm_reply (index : Nat) (bdaddr : List Nat) : Request :=
  .userConfirmReply index bdaddr

/-- mgmt_confirm_neg_reply: negative counterpart of mgmt_confirm_reply. -/
def mgmt_confirm_neg_reply (index : Nat) (bdaddr : List Nat) : Request :=
  .userConfirmNegReply index bdaddr

/-- Handler user_confirm: drops an event of the wrong exact length; on NULL
or empty (leading newline) input sends a negative confirmation reply;
otherwise strips one trailing newline and sends a positive reply exactly
when the first character is y or Y, a negative reply otherwise. The
confirm_hint field only selects which prompt is printed. -/
def user_confirm (st : BtState) (index len : Nat) (ev : UserConfirmEv)
    (input : Option (List Char)) : BtState × Effects :=
  if len ≠ userConfirmRequestEvSize then
    (st, errEff "Invalid user_confirm request length")
  else
    match input with
    | none => (st, reqEff (mgmt_confirm_neg_reply index ev.addr.bdaddr))
    | some rsp =>
      if rsp.head? = some '\n' then
        (st, reqEff (mgmt_confirm_neg_reply index ev.addr.bdaddr))
      else
        if (trimNewline rsp).head? = some 'y' ∨ (trimNewline rsp).head? = some 'Y' then
          (st, reqEff (mgmt_confirm_reply index ev.addr.bdaddr))
        else (st, reqEff (mgmt_confirm_neg_reply index ev.addr.bdaddr))

/-- Response handler pin_rsp: on non-success status reports the failure and
quits the event loop, on success prints and leaves the loop running. -/
def pin_rsp (st : BtState) (status : Nat) : BtState × Effects :=
  if status ≠ 0 then (quitLoop st, errEff "PIN Code reply failed")
  else (st, noEff)

/-- Response handler pin_neg_rsp: same shape as pin_rsp. -/
def pin_neg_rsp (st : BtState) (status : Nat) : BtState × Effects :=
  if status ≠ 0 then (quitLoop st, errEff "PIN Neg reply failed")
  else (st, noEff)

/-- Response handler confirm_rsp: same shape as pin_rsp. -/
def confirm_rsp (st : BtState) (status : Nat) : BtState × Effects :=
  if status ≠ 0 then (quitLoop st, errEff "User Confirm reply failed")
  else (st, noEff)

/-- Response handler confirm_neg_rsp: same shape as pin_rsp. -/
def confirm_neg_rsp (st : BtState) (status : Nat) : BtState × Effects :=
  if status ≠ 0 then (quitLoop st, errEff "Confirm Neg reply failed")
  else (st, noEff)

/-- Response handler confirm_name_rsp: classifies the response (failure
with empty payload, unexpected length, failure with payload, success) and
reports it; it never touches the globals and never quits the loop. -/
def confirm_name_rsp (st : BtState) (status len : Nat) : BtState × Effects :=
  if len = 0 ∧ status ≠ 0 then
    (st, errEff "confirm_name failed with status")
  else if len ≠ confirmNameRpSize then
    (st, errEff "confirm_name rsp length unexpected")
  else if status ≠ 0 then
    (st, errEff "confirm_name for addr failed")
  else (st, noEff)

/-- Response handler find_rsp: on failure reports and quits the loop
without entering discovery; on success sets the discovery flag. -/
def find_rsp (st : BtState) (status : Nat) : BtState × Effects :=
  if status ≠ 0 then (quitLoop st, errEff "Unable to start discovery")
  else ({ st with discovery := true }, noEff)

/-- Response handler info_rsp: decrements the pending read-info counter,
then on failure or a too-short reply quits the loop; on success it returns
without quitting while other read-info calls are pending, and quits once
the counter reaches zero. -/
def info_rsp (st : BtState) (status len : Nat) : BtState × Effects :=
  let st1 := { st with pending := st.pending - 1 }
  if status ≠ 0 then (quitLoop st1, errEff "Reading info failed")
  else if len < readInfoRpSize then (quitLoop st1, errEff "Too small info reply")
  else if st1.pending > 0 then (st1, noEff)
  else (quitLoop st1, noEff)

/-- send_cmd: wraps the callback in a command_data record, submits through
mgmt_send, frees the record when mgmt_send returned 0, and then executes
the literal return id of the source, handing back its controller-index
argument. The call id that mgmt_send produced is passed in as sendId since
src/shared/mgmt.c is outside the given sources. -/
def send_cmd (sendId op id : Nat) : Nat := id

/-- The return value the spec prescribes for a submission: the CallID that
mgmt_send produced, which is zero exactly when the submission failed.
Modelled from the spec: CallID is a process-unique handle returned when a
request is submitted; the zero value signals immediate submission failure. -/
def send_cmd_spec (sendId : Nat) : Nat := sendId

/-- One inbound event frame as dispatched to the registered handlers: each
constructor names the registered handler for its event code and carries the
wire-declared payload length plus the parsed fields that handler inspects.
The prompt handlers additionally carry the operator input line their
blocking fgets would return. -/
inductive MEvent where
  | controllerError (len : Nat)
  | indexAdded (len : Nat)
  | indexRemoved (len : Nat)
  | newSettings (len : Nat)
  | discoveringEv (len discType disc : Nat)
  | newLinkKey (len : Nat)
  | deviceConnected (len eirLen : Nat)
  | deviceDisconnected (len : Nat)
  | connectFailed (len : Nat)
  | authFailed (len : Nat)
  | localNameChanged (len : Nat)
  | deviceFound (len : Nat) (ev : DeviceFoundEv)
  | pinCodeRequest (len : Nat) (ev : PinRequestEv) (input : Option (List Char))
  | userConfirmRequest (len : Nat) (ev : UserConfirmEv) (input : Option (List Char))
deriving DecidableEq, Repr

/-- Event dispatch: routes one event frame to the handler registered for
its event code in main, exactly as mgmt_register wires them up. -/
def dispatch (st : BtState) (index : Nat) : MEvent → BtState × Effects
  | .controllerError len => controller_error st len
  | .indexAdded _ => index_added st
  | .indexRemoved _ => index_removed st
  | .newSettings len => new_settings st len
  | .discoveringEv len discType disc => discovering st len discType disc
  | .newLinkKey len => new_link_key st len
  | .deviceConnected len eirLen => connected st len eirLen
  | .deviceDisconnected len => disconnected st len
  | .connectFailed len => conn_failed st len
  | .authFailed len => auth_failed st len
  | .localNameChanged len => local_name_changed st len
  | .deviceFound len ev => device_found st index len ev
  | .pinCodeRequest len ev input => request_pin st index len ev input
  | .userConfirmRequest len ev input => user_confirm st index len ev input

/-- The wire-declared payload length of an event frame. -/
def evLen : MEvent → Nat
  | .controllerError len => len
  | .indexAdded len => len
  | .indexRemoved len => len
  | .newSettings len => len
  | .discoveringEv len _ _ => len
  | .newLinkKey len => len
  | .deviceConnected len _ => len
  | .deviceDisconnected len => len
  | .connectFailed len => len
  | .authFailed len => len
  | .localNameChanged len => len
  | .deviceFound len _ => len
  | .pinCodeRequest len _ _ => len
  | .userConfirmRequest len _ _ => len

/-- The minimum structure size its handler requires of each event code. -/
def minEvSize : MEvent → Nat
  | .controllerError _ => controllerErrorEvSize
  | .indexAdded _ => 0
  | .indexRemoved _ => 0
  | .newSettings _ => newSettingsEvSize
  | .discoveringEv _ _ _ => discoveringEvSize
  | .newLinkKey _ => newLinkKeyEvSize
  | .deviceConnected _ _ => deviceConnectedEvSize
  | .deviceDisconnected _ => addrInfoSize
  | .connectFailed _ => connectFailedEvSize
  | .authFailed _ => authFailedEvSize
  | .localNameChanged _ => localNameChangedEvSize
  | .deviceFound _ _ => deviceFoundEvSize
  | .pinCodeRequest _ _ _ => pinCodeRequestEvSize
  | .userConfirmRequest _ _ _ => userConfirmRequestEvSize

/-- Whether an event frame is the discovery-stop trigger in the given
state: a discovering event of sufficient length reporting stopped while
the discovery flag is set. -/
def isStopTrigger (st : BtState) : MEvent → Bool
  | .discoveringEv len _ disc =>
      decide (discoveringEvSize ≤ len) && decide (disc = 0) && st.discovery
  | _ => false

/-- Number of confirm_name requests in a request list. -/
def countConfirmName (reqs : List Request) : Nat :=
  reqs.countP fun r =>
    match r with
    | .confirmName _ _ _ => true
    | _ => false

/-- All requests submitted while a fixed-state run of device_found events
is processed (device_found never changes the globals, so the state is
constant across the run). -/
def runFound (st : BtState) (index : Nat) (evs : List (Nat × DeviceFoundEv)) :
    List Request :=
  evs.foldr (fun p acc => (device_found st index p.1 p.2).2.requests ++ acc) []

/-- A found-device record that passes both length checks and carries the
confirm-name flag. -/
def flaggedWellFormed (p : Nat × DeviceFoundEv) : Bool :=
  decide (p.1 = deviceFoundEvSize + p.2.eir_len) &&
    decide (p.2.flags &&& MGMT_DEV_FOUND_CONFIRM_NAME ≠ 0)

/-- Whether a request is a pin reply whose pin_len exceeds the capacity of
the pin_code field it is copied into. -/
def pinReplyOverflows : Request → Bool
  | .pinReply _ _ _ pinLen => decide (pinCodeMaxLen < pinLen)
  | _ => false

/-- The reply list the Interactive Prompt Coordinator section of the spec
prescribes for a PIN prompt: absent or empty input yields one negative
reply for the event address; any other line is sent, after stripping the
trailing line terminator, as one PIN reply whose pin_len is the trimmed
length. -/
def pinPromptSpec (index : Nat) (addr : AddrInfo)
    (input : Option (List Char)) : List Request :=
  match input with
  | none => [.pinNegReply index addr]
  | some l =>
    if l = [] ∨ l.head? = some '\n' then [.pinNegReply index addr]
    else
      let t := if l.getLast? = some '\n' then l.dropLast else l
      [.pinReply index addr t t.length]

/-- The reply list the spec prescribes for a user-confirmation prompt: one
positive reply exactly when the input line begins with y or Y, otherwise
(including empty or absent input) one negative reply, always for the event
address. -/
def confirmPromptSpec (index : Nat) (bdaddr : List Nat)
    (input : Option (List Char)) : List Request :=
  match input with
  | none => [.userConfirmNegReply index bdaddr]
  | some l =>
    if l.head? = some 'y' ∨ l.head? = some 'Y' then
      [.userConfirmReply index bdaddr]
    else [.userConfirmNegReply index bdaddr]

/-- The request_pin handler never changes the globals: every branch hands
the state back unchanged. -/
lemma request_pin_state (st : BtState) (index len : Nat) (ev : PinRequestEv)
    (input : Option (List Char)) :
    (request_pin st index len ev input).1 = st := by
  unfold request_pin
  rcases input with _ | l <;> simp only <;> split <;> try rfl
  split <;> rfl

/-- The user_confirm handler never changes the globals. -/
lemma user_confirm_state (st : BtState) (index len : Nat) (ev : UserConfirmEv)
    (input : Option (List Char)) :
    (user_confirm st index len ev input).1 = st := by
  unfold user_confirm
  rcases input with _ | l <;> simp only <;> split <;> try rfl
  split <;> try rfl
  split <;> rfl

/-- The device_found handler never changes the globals. -/
lemma device_found_state (st : BtState) (index len : Nat) (ev : DeviceFoundEv) :
    (device_found st index len ev).1 = st := by
  unfold device_found
  split <;> try rfl
  split <;> try rfl
  split <;> rfl

/-- Stripping the trailing newline does not move the first character of a
line that does not begin with a newline. -/
lemma trimNewline_head (l : List Char) (hne : l ≠ [])
    (hh : l.head? ≠ some '\n') : (trimNewline l).head? = l.head? := by
  match l with
  | [a] =>
    unfold trimNewline
    by_cases ha : a = '\n'
    · subst ha; simp at hh
    · simp [ha]
  | a :: b :: t =>
    unfold trimNewline
    split
    · rw [List.dropLast_cons₂, List.head?_cons, List.head?_cons]
    · rfl

/-- Counting helper: countConfirmName distributes over list append. -/
lemma countConfirmName_append (a b : List Request) :
    countConfirmName (a ++ b) = countConfirmName a + countConfirmName b := by
  unfold countConfirmName
  exact List.countP_append _ _ _

/-- One device_found event contributes one confirm_name request exactly
when it is well formed and flagged, whenever discovery is active. -/
lemma countConfirmName_device_found (st : BtState) (index len : Nat)
    (ev : DeviceFoundEv) (h : st.discovery = true) :
    countConfirmName (device_found st index len ev).2.requests =
      (if flaggedWellFormed (len, ev) then 1 else 0) := by
  unfold device_found flaggedWellFormed countConfirmName
  by_cases h1 : len < deviceFoundEvSize
  · have h2 : ¬ len = deviceFoundEvSize + ev.eir_len := by omega
    simp [h1, h2, errEff]
  · by_cases h2 : len = deviceFoundEvSize + ev.eir_len
    · by_cases h3 : ev.flags &&& MGMT_DEV_FOUND_CONFIRM_NAME ≠ 0
      · simp [h1, h2, h3, h, reqEff]
      · simp [h1, h2, h3, h, noEff]
    · simp [h1, h2, errEff]

/-- Claim C1: send_cmd does not hand back the CallID of the submission.
The source returns its controller-index argument id instead of the call id
mgmt_send produced, so a successful submission at index 0 returns the
zero/invalid value (here mgmt_send returned call id 5 for opcode 5, Set
Powered), while a failed submission (mgmt_send returned 0) at index 7
returns the non-zero value 7; the spec return value send_cmd_spec differs
on both inputs. -/
theorem send_cmd_returns_index_not_callid :
    send_cmd 5 5 0 = 0 ∧ send_cmd_spec 5 ≠ 0 ∧
    send_cmd 0 5 7 = 7 ∧ send_cmd_spec 0 = 0 := by decide

/-- Claim C3 counterexample: a failed PIN-code reply and a failed
user-confirm reply quit the event loop from the running initial state, and
a failed read-info response quits it even though another read-info call is
still pending afterwards (pending drops from 2 to 1). -/
theorem failed_replies_quit_loop_counterexample :
    initState.quit = false ∧
    (pin_rsp initState 1).1.quit = true ∧
    (confirm_rsp initState 1).1.quit = true ∧
    ({ initState with pending := 2 } : BtState).pending - 1 > 0 ∧
    (info_rsp { initState with pending := 2 } 1 readInfoRpSize).1.quit = true := by
  decide

/-- Claim C3 as amended: a response with non-success status to a PIN-code
reply, PIN negative reply, user-confirm reply, user-confirm negative reply
or read-info request reports the failure and quits the event loop (for
read-info even while other read-info calls are pending), while a
successful PIN or user-confirm reply response leaves the loop and globals
untouched. -/
theorem failed_reply_status_quits_loop (st : BtState) (status len : Nat)
    (h : status ≠ 0) :
    (pin_rsp st status).1.quit = true ∧
    (pin_neg_rsp st status).1.quit = true ∧
    (confirm_rsp st status).1.quit = true ∧
    (confirm_neg_rsp st status).1.quit = true ∧
    (info_rsp st status len).1.quit = true ∧
    (pin_rsp st 0).1 = st ∧
    (confirm_rsp st 0).1 = st := by
  unfold pin_rsp pin_neg_rsp confirm_rsp confirm_neg_rsp info_rsp quitLoop
  simp [h]

/-- Claim C3 witness: the amended statement at the concrete failing status
1 with reply length 0 from the initial state. -/
theorem failed_reply_status_quits_loop_witness :
    (pin_rsp initState 1).1.quit = true ∧
    (pin_neg_rsp initState 1).1.quit = true ∧
    (confirm_rsp initState 1).1.quit = true ∧
    (confirm_neg_rsp initState 1).1.quit = true ∧
    (info_rsp initState 1 0).1.quit = true ∧
    (pin_rsp initState 0).1 = initState ∧
    (confirm_rsp initState 0).1 = initState :=
  failed_reply_status_quits_loop initState 1 0 (by decide)

/-- Claim C9: the confirm_name_rsp handler hands the globals back
unchanged in every branch, for every status and every response length; in
particular it never quits the event loop and never alters the discovery
flag, whatever the outcome of the confirm-name exchange. -/
theorem confirm_name_rsp_never_aborts (st : BtState) (status len : Nat) :
    (confirm_name_rsp st status len).1 = st ∧
    (confirm_name_rsp st status len).1.quit = st.quit ∧
    (confirm_name_rsp st status len).1.discovery = st.discovery := by
  have h : (confirm_name_rsp st status len).1 = st := by
    unfold confirm_name_rsp
    split <;> try rfl
    split <;> try rfl
    split <;> rfl
  exact ⟨h, by rw [h], by rw [h]⟩

/-- Claim C10: the PIN input buffer char pin[18] admits a 17-character
line without a newline; on such a line request_pin submits a PIN reply
whose pin_len is 17, one more than the 16-byte capacity of the pin_code
field the source memcpy copies into, so the copy overruns the field. -/
theorem pin_reply_overflow_at_seventeen_chars :
    validFgetsLine pinBufSize (List.replicate 17 'a') ∧
    (request_pin initState 0 pinCodeRequestEvSize
        { addr := { bdaddr := [0x66, 0x55, 0x44, 0x33, 0x22, 0x11], addrType := 0 },
          secure := 0 }
        (some (List.replicate 17 'a'))).2.requests =
      [Request.pinReply 0
        { bdaddr := [0x66, 0x55, 0x44, 0x33, 0x22, 0x11], addrType := 0 }
        (List.replicate 17 'a') 17] ∧
    ((request_pin initState 0 pinCodeRequestEvSize
        { addr := { bdaddr := [0x66, 0x55, 0x44, 0x33, 0x22, 0x11], addrType := 0 },
          secure := 0 }
        (some (List.replicate 17 'a'))).2.requests.any pinReplyOverflows = true) ∧
    17 > pinCodeMaxLen := by decide

/-- Claim C2 counterexample: with discovery active and the resolve_names
policy disabled, a well-formed found-device event carrying the confirm-name
flag still causes one confirm-name request to be submitted, where the claim
demands zero. -/
theorem confirm_name_sent_with_resolve_off :
    countConfirmName (device_found
      { monitor := false, discovery := true, resolve_names := false,
        pending := 0, quit := false }
      0 14
      { addr := { bdaddr := [0xFF, 0xEE, 0xDD, 0xCC, 0xBB, 0xAA], addrType := 1 },
        rssi := -60, flags := 1, eir_len := 0 }).2.requests = 1 ∧
    (1 : Nat) ≠ 0 := by decide

/-- Claim C2 as amended: over any run of found-device events with discovery
active, the number of confirm-name requests equals the number of
well-formed flagged events, whatever the resolve_names policy; the policy
only selects the name_known byte of each request. -/
theorem confirm_name_request_count (st : BtState) (index : Nat)
    (evs : List (Nat × DeviceFoundEv)) (h : st.discovery = true) :
    countConfirmName (runFound st index evs) = evs.countP flaggedWellFormed := by
  induction evs with
  | nil => rfl
  | cons p rest ih =>
    rcases p with ⟨len, ev⟩
    show countConfirmName
        ((device_found st index len ev).2.requests ++ runFound st index rest) = _
    rw [countConfirmName_append, ih,
      countConfirmName_device_found st index len ev h, List.countP_cons]
    omega

/-- Claim C2 witness: the amended count at a concrete two-event run, one
well-formed flagged event and one too-short event, with resolve_names
disabled. -/
theorem confirm_name_request_count_witness :
    countConfirmName (runFound
      { monitor := false, discovery := true, resolve_names := false,
        pending := 0, quit := false }
      0
      [(14, { addr := { bdaddr := [1, 2, 3, 4, 5, 6], addrType := 1 },
              rssi := 0, flags := 1, eir_len := 0 }),
       (10, { addr := { bdaddr := [1, 2, 3, 4, 5, 6], addrType := 1 },
              rssi := 0, flags := 1, eir_len := 0 })]) =
    List.countP flaggedWellFormed
      [(14, { addr := { bdaddr := [1, 2, 3, 4, 5, 6], addrType := 1 },
              rssi := 0, flags := 1, eir_len := 0 }),
       (10, { addr := { bdaddr := [1, 2, 3, 4, 5, 6], addrType := 1 },
              rssi := 0, flags := 1, eir_len := 0 })] :=
  confirm_name_request_count _ 0 _ (by decide)

/-- Claim C4: on a well-formed flagged found-device event during active
discovery, the confirm-name request carries the event address and a
name_known byte equal to 1 when resolve_names is disabled and 0 when it is
enabled. -/
theorem device_found_name_known_policy (st : BtState) (index len : Nat)
    (ev : DeviceFoundEv) (hd : st.discovery = true)
    (hl : len = deviceFoundEvSize + ev.eir_len)
    (hf : ev.flags &&& MGMT_DEV_FOUND_CONFIRM_NAME ≠ 0) :
    (st.resolve_names = false →
      (device_found st index len ev).2.requests =
        [Request.confirmName index ev.addr 1]) ∧
    (st.resolve_names = true →
      (device_found st index len ev).2.requests =
        [Request.confirmName index ev.addr 0]) := by
  have h1 : ¬ len < deviceFoundEvSize := by omega
  constructor <;> intro hr <;>
    simp [device_found, h1, hl, hd, hf, hr, reqEff]

/-- Claim C4 witness: a found-device event for AA:BB:CC:DD:EE:FF, type LE
Public, flagged, with resolve_names disabled, yields a confirm-name
request with name_known equal to 1. -/
theorem device_found_name_known_policy_witness :
    (device_found
      { monitor := false, discovery := true, resolve_names := false,
        pending := 0, quit := false }
      0 14
      { addr := { bdaddr := [0xFF, 0xEE, 0xDD, 0xCC, 0xBB, 0xAA], addrType := 1 },
        rssi := -60, flags := 1, eir_len := 0 }).2.requests =
      [Request.confirmName 0
        { bdaddr := [0xFF, 0xEE, 0xDD, 0xCC, 0xBB, 0xAA], addrType := 1 } 1] :=
  (device_found_name_known_policy _ 0 14 _ rfl (by decide) (by decide)).1 rfl

/-- Claim C5: on a well-formed PIN-request event, request_pin leaves the
globals unchanged and submits exactly the reply list the spec prescribes:
one negative reply for the event address when the operator input is absent
or the empty line, otherwise one PIN reply for that address carrying the
line with its trailing newline stripped and pin_len equal to the trimmed
length. -/
theorem request_pin_matches_claim (st : BtState) (index : Nat)
    (ev : PinRequestEv) (input : Option (List Char))
    (h : validOptLine pinBufSize input) :
    (request_pin st index pinCodeRequestEvSize ev input).1 = st ∧
    (request_pin st index pinCodeRequestEvSize ev input).2.requests =
      pinPromptSpec index ev.addr input := by
  refine ⟨request_pin_state st index pinCodeRequestEvSize ev input, ?_⟩
  unfold request_pin pinPromptSpec
  rcases input with _ | l
  · simp [mgmt_pin_neg_reply, reqEff]
  · obtain ⟨hne, hlen, hmid⟩ := h
    by_cases hh : l.head? = some '\n'
    · simp [hh, hne, reqEff, mgmt_pin_neg_reply]
    · simp [hh, hne, reqEff, mgmt_pin_reply, trimNewline]

/-- Claim C5 witness: a PIN-request event for 11:22:33:44:55:66 with the
empty operator line yields exactly the prescribed negative reply. -/
theorem request_pin_matches_claim_witness :
    validOptLine pinBufSize (some ['\n']) ∧
    ((request_pin initState 0 pinCodeRequestEvSize
        { addr := { bdaddr := [0x66, 0x55, 0x44, 0x33, 0x22, 0x11], addrType := 0 },
          secure := 0 }
        (some ['\n'])).1 = initState ∧
      (request_pin initState 0 pinCodeRequestEvSize
        { addr := { bdaddr := [0x66, 0x55, 0x44, 0x33, 0x22, 0x11], addrType := 0 },
          secure := 0 }
        (some ['\n'])).2.requests =
        pinPromptSpec 0
          { bdaddr := [0x66, 0x55, 0x44, 0x33, 0x22, 0x11], addrType := 0 }
          (some ['\n'])) :=
  ⟨by decide, request_pin_matches_claim initState 0 _ (some ['\n']) (by decide)⟩

/-- Claim C6: on a well-formed user-confirmation-request event, the
handler leaves the globals unchanged and submits exactly one reply for the
event address, positive exactly when the input line begins with y or Y and
negative otherwise (including absent or empty input), for either value of
confirm_hint. -/
theorem user_confirm_matches_claim (st : BtState) (index : Nat)
    (ev : UserConfirmEv) (input : Option (List Char))
    (h : validOptLine rspBufSize input) :
    (user_confirm st index userConfirmRequestEvSize ev input).1 = st ∧
    (user_confirm st index userConfirmRequestEvSize ev input).2.requests =
      confirmPromptSpec index ev.addr.bdaddr input := by
  refine ⟨user_confirm_state st index userConfirmRequestEvSize ev input, ?_⟩
  unfold user_confirm confirmPromptSpec
  rcases input with _ | l
  · simp [mgmt_confirm_neg_reply, reqEff]
  · obtain ⟨hne, hlen, hmid⟩ := h
    by_cases hh : l.head? = some '\n'
    · have hy : ¬ (l.head? = some 'y' ∨ l.head? = some 'Y') := by
        rw [hh]; decide
      simp [hh, hy, reqEff, mgmt_confirm_neg_reply]
    · have ht := trimNewline_head l hne hh
      by_cases hy : l.head? = some 'y' ∨ l.head? = some 'Y'
      · simp [hh, ht, hy, reqEff, mgmt_confirm_reply]
      · simp [hh, ht, hy, reqEff, mgmt_confirm_neg_reply]

/-- Claim C6 witness: a user-confirmation request with confirm_hint 0 and
value 123456, with operator input yes, yields exactly the prescribed
positive reply. -/
theorem user_confirm_matches_claim_witness :
    validOptLine rspBufSize (some ['y', 'e', 's', '\n']) ∧
    ((user_confirm initState 0 userConfirmRequestEvSize
        { addr := { bdaddr := [0x66, 0x55, 0x44, 0x33, 0x22, 0x11], addrType := 0 },
          confirm_hint := 0, value := 123456 }
        (some ['y', 'e', 's', '\n'])).1 = initState ∧
      (user_confirm initState 0 userConfirmRequestEvSize
        { addr := { bdaddr := [0x66, 0x55, 0x44, 0x33, 0x22, 0x11], addrType := 0 },
          confirm_hint := 0, value := 123456 }
        (some ['y', 'e', 's', '\n'])).2.requests =
        confirmPromptSpec 0 [0x66, 0x55, 0x44, 0x33, 0x22, 0x11]
          (some ['y', 'e', 's', '\n'])) :=
  ⟨by decide, user_confirm_matches_claim initState 0 _ _ (by decide)⟩

/-- Claim C7: on a successful start-discovery response find_rsp enters
discovery without quitting, and on a failed one it quits without ever
setting the discovery flag; and an event frame quits the event loop exactly
when it is a sufficiently long discovering event reporting stopped while
the discovery flag is set, so no other event, and no discovering event
before discovery became active or reporting started, terminates the run. -/
theorem discovery_stop_sole_trigger (st : BtState) (status index : Nat)
    (e : MEvent) :
    ((find_rsp st status).1 =
      if status = 0 then { st with discovery := true } else quitLoop st) ∧
    ((dispatch st index e).1.quit = (st.quit || isStopTrigger st e)) := by
  constructor
  · unfold find_rsp
    by_cases hs : status = 0 <;> simp [hs]
  · cases e with
    | controllerError len =>
      simp only [dispatch, controller_error, isStopTrigger]
      split <;> simp
    | indexAdded len => simp [dispatch, index_added, isStopTrigger]
    | indexRemoved len => simp [dispatch, index_removed, isStopTrigger]
    | newSettings len =>
      simp only [dispatch, new_settings, isStopTrigger]
      split <;> simp
    | discoveringEv len discType disc =>
      simp only [dispatch, discovering, isStopTrigger]
      by_cases h1 : len < discoveringEvSize
      · have h2 : ¬ discoveringEvSize ≤ len := by omega
        simp [h1, h2]
      · have h2 : discoveringEvSize ≤ len := by omega
        by_cases h4 : disc = 0
        · by_cases h5 : st.discovery = true
          · simp [h1, h2, h4, h5, quitLoop]
          · have h5f : st.discovery = false := by
              cases hq : st.discovery
              · rfl
              · exact absurd hq h5
            simp [h1, h2, h4, h5f]
        · simp [h1, h4]
    | newLinkKey len =>
      simp only [dispatch, new_link_key, isStopTrigger]
      split <;> simp
    | deviceConnected len eirLen =>
      simp only [dispatch, connected, isStopTrigger]
      split
      · simp
      · split <;> simp
    | deviceDisconnected len =>
      simp only [dispatch, disconnected, isStopTrigger]
      split <;> simp
    | connectFailed len =>
      simp only [dispatch, conn_failed, isStopTrigger]
      split <;> simp
    | authFailed len =>
      simp only [dispatch, auth_failed, isStopTrigger]
      split <;> simp
    | localNameChanged len =>
      simp only [dispatch, local_name_changed, isStopTrigger]
      split <;> simp
    | deviceFound len ev =>
      show (device_found st index len ev).1.quit = _
      rw [device_found_state]
      simp [isStopTrigger]
    | pinCodeRequest len ev input =>
      show (request_pin st index len ev input).1.quit = _
      rw [request_pin_state]
      simp [isStopTrigger]
    | userConfirmRequest len ev input =>
      show (user_confirm st index len ev input).1.quit = _
      rw [user_confirm_state]
      simp [isStopTrigger]

/-- Claim C8: an event frame shorter than the minimum structure of its
event code is dropped by its handler: the globals are unchanged (so the
loop is not quit and the discovery session state is untouched), no request
is submitted in response, and an error is reported. -/
theorem short_event_reported_and_dropped (st : BtState) (index : Nat)
    (e : MEvent) (h : evLen e < minEvSize e) :
    (dispatch st index e).1 = st ∧
    (dispatch st index e).2.requests = [] ∧
    (dispatch st index e).2.errors ≠ [] := by
  cases e with
  | controllerError len =>
    simp only [evLen, minEvSize] at h
    simp [dispatch, controller_error, h, errEff]
  | indexAdded len =>
    simp only [evLen, minEvSize] at h
    exact absurd h (Nat.not_lt_zero len)
  | indexRemoved len =>
    simp only [evLen, minEvSize] at h
    exact absurd h (Nat.not_lt_zero len)
  | newSettings len =>
    simp only [evLen, minEvSize] at h
    simp [dispatch, new_settings, h, errEff]
  | discoveringEv len discType disc =>
    simp only [evLen, minEvSize] at h
    simp [dispatch, discovering, h, errEff]
  | newLinkKey len =>
    simp only [evLen, minEvSize] at h
    simp [dispatch, new_link_key, Nat.ne_of_lt h, errEff]
  | deviceConnected len eirLen =>
    simp only [evLen, minEvSize] at h
    simp [dispatch, connected, h, errEff]
  | deviceDisconnected len =>
    simp only [evLen, minEvSize] at h
    simp [dispatch, disconnected, h, errEff]
  | connectFailed len =>
    simp only [evLen, minEvSize] at h
    simp [dispatch, conn_failed, Nat.ne_of_lt h, errEff]
  | authFailed len =>
    simp only [evLen, minEvSize] at h
    simp [dispatch, auth_failed, Nat.ne_of_lt h, errEff]
  | localNameChanged len =>
    simp only [evLen, minEvSize] at h
    simp [dispatch, local_name_changed, Nat.ne_of_lt h, errEff]
  | deviceFound len ev =>
    simp only [evLen, minEvSize] at h
    simp [dispatch, device_found, h, errEff]
  | pinCodeRequest len ev input =>
    simp only [evLen, minEvSize] at h
    simp [dispatch, request_pin, Nat.ne_of_lt h, errEff]
  | userConfirmRequest len ev input =>
    simp only [evLen, minEvSize] at h
    simp [dispatch, user_confirm, Nat.ne_of_lt h, errEff]

/-- Claim C8 witness: a one-byte discovering event is shorter than its
two-byte minimum structure; dispatch from the initial state leaves the
state unchanged, submits nothing, and reports an error. -/
theorem short_event_reported_and_dropped_witness :
    evLen (MEvent.discoveringEv 1 0 0) < minEvSize (MEvent.discoveringEv 1 0 0) ∧
    ((dispatch initState 0 (MEvent.discoveringEv 1 0 0)).1 = initState ∧
      (dispatch initState 0 (MEvent.discoveringEv 1 0 0)).2.requests = [] ∧
      (dispatch initState 0 (MEvent.discoveringEv 1 0 0)).2.errors ≠ []) :=
  ⟨by decide, short_event_reported_and_dropped initState 0 _ (by decide)⟩

end Btmgmt
